import Mathlib

/-
Shallow embedding of the mock-ease HTTP mock-server builder
(src/lib/mock-ease.js, TypeScript source in src/unnamed/part_001).

The builder accumulates configuration (server name, route prefix, global
delay) and a router stack of layers: auth-gate middlewares installed by
EnableAuth and route bindings installed by the BindNew*Route methods.
Schema producers may have side effects, so they are embedded in
state-passing style: a producer is a function from a state to a pair of
a new state and a produced value.  Threading the state through request
handling makes the number and order of producer invocations observable,
which is what several claims are about.

JavaScript particulars modelled explicitly:
  - truthiness tests on optional numbers (`if (maxResults)`,
    `if (delay || this._delay)`): undefined and 0 are falsy;
  - `setTimeout(cb, delay)` with an undefined delay fires after 0 ms,
    so the scheduled deferral is `delay ?? 0`;
  - `serverName || 'Mock Server'`: the empty string is falsy and is
    replaced by the default;
  - node path.join on posix (the `.replace(/\\/g, '/')` in joinPath is
    the identity there): empty segments are dropped, segments are glued
    with "/", then "." and ".." components are normalized.
Express routing particulars modelled: a router dispatches a request
through its layer stack in registration order; a `use` middleware
(the auth gate) sees every request, a route layer runs its handler when
method and path match (parameterized patterns are not exercised by any
claim, so path matching is plain string equality); route handlers never
call next(), so dispatch stops at the first matching route.
-/

namespace MockEase

/-- HTTP methods supported by the builder (express stores them lowercase;
`upper` below is `toUpperCase` as used by `logRoutes`). -/
inductive Method : Type where
  | get
  | post
  | put
  | delete
  | patch
  deriving DecidableEq

/-- `method.toUpperCase()` on the method name string. -/
def Method.upper : Method → String
  | .get => "GET"
  | .post => "POST"
  | .put => "PUT"
  | .delete => "DELETE"
  | .patch => "PATCH"

/-- JavaScript truthiness of an optional number argument:
`undefined` and `0` are falsy, every other count is truthy. -/
def jsTruthy : Option Nat → Bool
  | none => false
  | some n => n ≠ 0

/-- `serverName || 'Mock Server'`: JS `||` falls through to the default on
`undefined` and on the empty string (both falsy). -/
def jsStringOr (s? : Option String) (dflt : String) : String :=
  match s? with
  | none => dflt
  | some s => if s = "" then dflt else s

/-- When a handler answers, the response is either written synchronously
(`res.status(200).json(...)` directly) or scheduled with
`setTimeout(..., ms)`. -/
inductive Timing : Type where
  | immediate
  | deferred (ms : Nat)
  deriving DecidableEq

/-- A JSON response body: a single produced value, an array of produced
values, or a fixed message object such as the 401 body. -/
inductive Body (V : Type) : Type where
  | single (v : V)
  | list (vs : List V)
  | message (s : String)
  deriving DecidableEq

/-- An HTTP response as written by the library: status code, JSON body,
and how its sending was scheduled. -/
structure Response (V : Type) : Type where
  status : Nat
  body : Body V
  timing : Timing
  deriving DecidableEq

/-- `SendResponseWithDelay(res, response, delay)` (mock-ease.js:24-33).
Both branches send status 200 with the JSON body, so only the timing is
computed here.  Source:
  if (delay || this._delay) { setTimeout(() => res.status(200).json(response), delay); }
  else { res.status(200).json(response); }
Note the timeout is scheduled with `delay` alone, and
`setTimeout(cb, undefined)` fires after 0 ms. -/
def SendResponseWithDelay (serverDelay : Nat) (delay? : Option Nat) : Timing :=
  if jsTruthy delay? || serverDelay ≠ 0 then Timing.deferred (delay?.getD 0)
  else Timing.immediate

/-- One route binding registered on the router: method, path pattern,
captured schema producer, optional maxResults (GET only), optional
per-route delay. -/
structure RouteBinding (σ V : Type) : Type where
  method : Method
  path : String
  schema : σ → σ × V
  maxResults : Option Nat
  delay : Option Nat

/-- A layer of the express router stack, in registration order: either an
auth-gate middleware installed by `EnableAuth` (storing the token and the
resolved header key) or a route binding. -/
inductive RouterLayer (σ V : Type) : Type where
  | authGate (token : String) (headerKey : String)
  | route (b : RouteBinding σ V)

/-- The MockServer builder state: `serverName`, `_routePrefix`, `_delay`
and the router with its accumulated layer stack. -/
structure MockServer (σ V : Type) : Type where
  serverName : String
  routePfx : String := ""
  delay : Nat := 0
  routerStack : List (RouterLayer σ V) := []

/-- `CreateNewServer(serverName)` / the `MockServer` constructor
(mock-ease.js:15-20, 206-208): `this.serverName = serverName || 'Mock Server'`. -/
def CreateNewServer (serverName? : Option String) : MockServer σ V :=
  { serverName := jsStringOr serverName? "Mock Server" }

/-- `SetDelay(delay)` (mock-ease.js:40-43). -/
def SetDelay (m : MockServer σ V) (d : Nat) : MockServer σ V :=
  { m with delay := d }

/-- `SetRoutePrefix(prefix)` (mock-ease.js:70-73). -/
def SetRoutePfx (m : MockServer σ V) (p : String) : MockServer σ V :=
  { m with routePfx := p }

/-- `EnableAuth(dummyToken, headerKey = 'authorization')`
(mock-ease.js:51-63): resolves the header key (`headerKey ?? 'authorization'`,
with the parameter default covering the omitted case) and appends one gate
middleware to the router stack via `router.use`. -/
def EnableAuth (m : MockServer σ V) (dummyToken : String) (headerKey? : Option String) :
    MockServer σ V :=
  { m with routerStack :=
      m.routerStack ++ [RouterLayer.authGate dummyToken (headerKey?.getD "authorization")] }

/-- The gate condition (mock-ease.js:54-55):
`req.headers[key] === "Bearer " ++ dummyToken || req.headers[key] === dummyToken`.
A missing header is `undefined` and compares unequal to any string. -/
def authCheck (dummyToken : String) (headerVal : Option String) : Bool :=
  headerVal == some ("Bearer " ++ dummyToken) || headerVal == some dummyToken

/-- `Array.from({ length: n }, () => responseSchema())`: invokes the
producer n times in index order and collects the values. -/
def produceN (n : Nat) (f : σ → σ × V) (s : σ) : σ × List V :=
  match n with
  | 0 => (s, [])
  | Nat.succ m =>
    let r := f s
    let rest := produceN m f r.1
    (rest.1, r.2 :: rest.2)

/-- `BindNewGETRoute(route, responseSchema, maxResults, delay)`
(mock-ease.js:98-107): registers one GET handler closure on the router.
The producer is only captured here, not invoked. -/
def BindNewGETRoute (m : MockServer σ V) (route : String) (responseSchema : σ → σ × V)
    (maxResults : Option Nat) (delay : Option Nat) : MockServer σ V :=
  { m with routerStack := m.routerStack ++
      [RouterLayer.route ⟨Method.get, route, responseSchema, maxResults, delay⟩] }

/-- `BindNewPOSTRoute(route, responseSchema, delay)` (mock-ease.js:116-122). -/
def BindNewPOSTRoute (m : MockServer σ V) (route : String) (responseSchema : σ → σ × V)
    (delay : Option Nat) : MockServer σ V :=
  { m with routerStack := m.routerStack ++
      [RouterLayer.route ⟨Method.post, route, responseSchema, none, delay⟩] }

/-- `BindNewPUTRoute(route, responseSchema, delay)` (mock-ease.js:131-137). -/
def BindNewPUTRoute (m : MockServer σ V) (route : String) (responseSchema : σ → σ × V)
    (delay : Option Nat) : MockServer σ V :=
  { m with routerStack := m.routerStack ++
      [RouterLayer.route ⟨Method.put, route, responseSchema, none, delay⟩] }

/-- `BindNewDELETERoute(route, responseSchema, delay)` (mock-ease.js:146-152). -/
def BindNewDELETERoute (m : MockServer σ V) (route : String) (responseSchema : σ → σ × V)
    (delay : Option Nat) : MockServer σ V :=
  { m with routerStack := m.routerStack ++
      [RouterLayer.route ⟨Method.delete, route, responseSchema, none, delay⟩] }

/-- `BindNewPATCHRoute(route, responseSchema, delay)` (mock-ease.js:161-167). -/
def BindNewPATCHRoute (m : MockServer σ V) (route : String) (responseSchema : σ → σ × V)
    (delay : Option Nat) : MockServer σ V :=
  { m with routerStack := m.routerStack ++
      [RouterLayer.route ⟨Method.patch, route, responseSchema, none, delay⟩] }

/-- `BindCrudRoutes(moduleName, schema, maxResults, delay)`
(mock-ease.js:81-88): five bind calls on the same producer. -/
def BindCrudRoutes (m : MockServer σ V) (moduleName : String) (schema : σ → σ × V)
    (maxResults : Option Nat) (delay : Option Nat) : MockServer σ V :=
  BindNewPATCHRoute
    (BindNewDELETERoute
      (BindNewPUTRoute
        (BindNewPOSTRoute
          (BindNewGETRoute m ("/" ++ moduleName) schema maxResults delay)
          ("/" ++ moduleName ++ "/create") schema delay)
        ("/" ++ moduleName ++ "/update") schema delay)
      ("/" ++ moduleName ++ "/delete") schema delay)
    ("/" ++ moduleName ++ "/patch-update") schema delay

/-- Running one bound handler (the closures of mock-ease.js:99-105 and
117-119 / 132-134 / 147-149 / 162-164) on the producer state.  The GET
handler always invokes the producer once first, then, when `maxResults`
is truthy, rebuilds the response with `Array.from`; the other methods
invoke it exactly once.  `serverDelay` is `this._delay`, read at request
time. -/
def runHandler (serverDelay : Nat) (b : RouteBinding σ V) (s : σ) : σ × Response V :=
  match b.method with
  | Method.get =>
    let r0 := b.schema s
    if jsTruthy b.maxResults then
      let r1 := produceN (b.maxResults.getD 0) b.schema r0.1
      (r1.1, ⟨200, Body.list r1.2, SendResponseWithDelay serverDelay b.delay⟩)
    else
      (r0.1, ⟨200, Body.single r0.2, SendResponseWithDelay serverDelay b.delay⟩)
  | _ =>
    let r0 := b.schema s
    (r0.1, ⟨200, Body.single r0.2, SendResponseWithDelay serverDelay b.delay⟩)

/-- An incoming HTTP request: method, path, and headers as key-value pairs. -/
structure Request : Type where
  method : Method
  path : String
  headers : List (String × String)

/-- Express router dispatch over the layer stack in registration order.
An auth gate calls next() on a passing header and otherwise answers
`401 { message: 'Unauthorized' }` synchronously; a route layer runs its
handler when method and path match and never calls next(); an exhausted
stack yields no response from this router (framework fallthrough). -/
def dispatch (serverDelay : Nat) (stack : List (RouterLayer σ V)) (req : Request) (s : σ) :
    σ × Option (Response V) :=
  match stack with
  | [] => (s, none)
  | RouterLayer.authGate token key :: rest =>
    if authCheck token (req.headers.lookup key) then dispatch serverDelay rest req s
    else (s, some ⟨401, Body.message "Unauthorized", Timing.immediate⟩)
  | RouterLayer.route b :: rest =>
    if b.method = req.method ∧ b.path = req.path then
      ((runHandler serverDelay b s).1, some (runHandler serverDelay b s).2)
    else dispatch serverDelay rest req s

/-- Resolution of ".." components as in node path normalization: a ".."
pops the previous component; at the front it is dropped on an absolute
path and kept on a relative one. -/
def resolveDots (isAbs : Bool) : List String → List String → List String
  | acc, [] => acc
  | acc, c :: rest =>
    if c = ".." then
      match acc.getLast? with
      | some prev =>
        if prev = ".." then resolveDots isAbs (acc ++ [c]) rest
        else resolveDots isAbs acc.dropLast rest
      | none =>
        if isAbs then resolveDots isAbs acc rest
        else resolveDots isAbs [c] rest
    else resolveDots isAbs (acc ++ [c]) rest

/-- node posix path normalization: split on "/", drop empty and "."
components, resolve "..", keep absoluteness and a trailing slash, and
fall back to "." when nothing remains. -/
def normalizePath (p : String) : String :=
  let isAbs := p.startsWith "/"
  let comps := (p.splitOn "/").filter (fun c => c ≠ "" && c ≠ ".")
  let core := String.intercalate "/" (resolveDots isAbs [] comps)
  let base := if isAbs then "/" ++ core else core
  let base := if base = "" then "." else base
  if p.endsWith "/" && base ≠ "/" && !(base.endsWith "/") then base ++ "/" else base

/-- `joinPath(...path)` (mock-ease.js:21-23) at its two-argument use site:
node path.join of the route prefix and the route path (on posix the
trailing `.replace(/\\/g, '/')` is the identity). -/
def joinPath (a b : String) : String :=
  let joined := if a = "" then b else if b = "" then a else a ++ "/" ++ b
  if joined = "" then "." else normalizePath joined

/-- `method.padEnd(6, ' ')` on a method name: pad with spaces (char 32)
up to length 6, longer strings unchanged. -/
def padEnd6 (s : String) : String :=
  s ++ String.mk (List.replicate (6 - s.length) (Char.ofNat 32))

/-- A layer of the top-level application stack that `logRoutes` walks
(`this.server._router.stack`): express-internal or json middleware, a
route registered directly on the app (the library never creates one),
or the mounted sub-router with its layer stack. -/
inductive AppLayer (σ V : Type) : Type where
  | plainMiddleware (nm : String)
  | appRoute (method : Method) (path : String)
  | routerMount (stack : List (RouterLayer σ V))

/-- The application stack after `Start` (mock-ease.js:172-177): the
express-internal query and init middlewares, the `express.json()` body
parser added by the constructor, then the sub-router mounted by
`server.use(this._routePrefix, this.router)`. -/
def appStackAfterStart (m : MockServer σ V) : List (AppLayer σ V) :=
  [AppLayer.plainMiddleware "query", AppLayer.plainMiddleware "expressInit",
   AppLayer.plainMiddleware "jsonParser", AppLayer.routerMount m.routerStack]

/-- The lines `logRoutes` (mock-ease.js:179-197) prints for one
application-stack entry: an app-level route prints
`METHOD - path`; a mounted router prints, for each of its layers that is
a route (gate middlewares have no `.route` and are skipped),
`METHOD.padEnd(6) -  joinPath(prefix, path)`; other middlewares print
nothing. -/
def logLayer (pfx : String) : AppLayer σ V → List String
  | AppLayer.plainMiddleware _ => []
  | AppLayer.appRoute method path => [Method.upper method ++ " - " ++ path]
  | AppLayer.routerMount stack =>
    stack.filterMap (fun l =>
      match l with
      | RouterLayer.route b => some (padEnd6 (Method.upper b.method) ++ " -  " ++ joinPath pfx b.path)
      | RouterLayer.authGate _ _ => none)

/-- The route-table lines printed by `logRoutes` after `Start`, in stack
order. -/
def logRoutes (m : MockServer σ V) : List String :=
  (appStackAfterStart m).flatMap (logLayer m.routePfx)

/-- The route bindings held in a router stack, in registration order. -/
def routeBindings (stack : List (RouterLayer σ V)) : List (RouteBinding σ V) :=
  stack.filterMap (fun l =>
    match l with
    | RouterLayer.route b => some b
    | RouterLayer.authGate _ _ => none)

/-- Instrumentation for counting producer invocations: pairs the state
with a counter that each invocation increments by one. -/
def withCount (f : σ → σ × V) : σ × Nat → (σ × Nat) × V :=
  fun p =>
    let r := f p.1
    ((r.1, p.2 + 1), r.2)

/-- A concrete producer over a counter state: each invocation returns the
number of invocations made before it and bumps the counter. -/
def counterSchema : Nat → Nat × Nat :=
  fun k => (k + 1, k)

theorem produceN_length (f : σ → σ × V) (n : Nat) :
    ∀ s, ((produceN n f s).2).length = n := by
  induction n with
  | zero => intro s; simp [produceN]
  | succ m ih => intro s; simp [produceN, ih]

theorem produceN_withCount_count (f : σ → σ × V) (n : Nat) :
    ∀ s k, ((produceN n (withCount f) (s, k)).1).2 = k + n := by
  induction n with
  | zero => intro s k; simp [produceN]
  | succ m ih =>
    intro s k
    simp [produceN, withCount, ih (f s).1 (k + 1)]
    omega

theorem produceN_counter (n : Nat) :
    ∀ c, produceN n counterSchema c = (c + n, (List.range n).map (fun i => c + i)) := by
  induction n with
  | zero => intro c; simp [produceN]
  | succ m ih =>
    intro c
    simp [produceN, counterSchema, ih (c + 1), List.range_succ_eq_map, List.map_map]
    constructor
    · omega
    · intro a _
      omega

theorem filterMap_route_map (g : RouteBinding σ V → String)
    (stack : List (RouterLayer σ V)) :
    stack.filterMap (fun l =>
        match l with
        | RouterLayer.route b => some (g b)
        | RouterLayer.authGate _ _ => none) =
      (stack.filterMap (fun l =>
        match l with
        | RouterLayer.route b => some b
        | RouterLayer.authGate _ _ => none)).map g := by
  induction stack with
  | nil => rfl
  | cons l rest ih => cases l <;> simp [List.filterMap_cons, ih]

/-- C1: the claim says that with no route-level delay but a server-level
delay d > 0 set via SetDelay, the response is deferred by d milliseconds.
The claim matches the documented intent of `SetDelay` and of the bind
methods ("This overrides the global level delay, if set"), but the code
schedules `setTimeout(cb, delay)` with the route-level argument alone, so
with only the server-level delay set the timeout is 0 ms, not d: at
serverDelay 50 and no route delay the timing is `deferred 0`, not
`deferred 50`.  The route-level override and the synchronous no-delay
case do behave as claimed. -/
theorem globalDelay_dropped_on_timeout :
    SendResponseWithDelay 50 none = Timing.deferred 0 ∧
      Timing.deferred 0 ≠ Timing.deferred 50 ∧
      SendResponseWithDelay 25 (some 7) = Timing.deferred 7 ∧
      SendResponseWithDelay 0 (some 7) = Timing.deferred 7 ∧
      SendResponseWithDelay 0 none = Timing.immediate := by
  decide

/-- C2 counterexample: a GET route with maxResults = 1 and the counting
producer, handled from counter state 0, ends at counter 2 — two
invocations, not the one the claim allows — and returns the value of the
second invocation, not of the first. -/
theorem get_maxResults_extra_invocation_cex :
    runHandler 0 ⟨Method.get, "/users", counterSchema, some 1, none⟩ 0 =
        (2, ⟨200, Body.list [1], Timing.immediate⟩) ∧
      ¬ (runHandler 0 ⟨Method.get, "/users", counterSchema, some 1, none⟩ 0).1 = 1 ∧
      ¬ (runHandler 0 ⟨Method.get, "/users", counterSchema, some 1, none⟩ 0).2.body =
          Body.list [0] := by
  decide

/-- C2 (amended): for every GET route bound with maxResults = N > 0,
handling one request invokes the schema producer exactly N + 1 times —
one initial invocation whose result is discarded, then N further
invocations whose results are returned, in invocation order, as the
response sequence of length N.  Stated with an invocation counter woven
through an arbitrary producer, plus the counting producer to pin down
which invocations are returned and in what order. -/
theorem get_maxResults_invocations (f : σ → σ × V) (n : Nat) (hn : 0 < n)
    (path q : String) (d? : Option Nat) (sd : Nat) (s : σ) (k c : Nat) :
    ((runHandler sd ⟨Method.get, path, withCount f, some n, d?⟩ (s, k)).1).2 = k + (n + 1) ∧
      (∃ vs, ((runHandler sd ⟨Method.get, path, withCount f, some n, d?⟩ (s, k)).2).body =
          Body.list vs ∧ vs.length = n) ∧
      ((runHandler sd ⟨Method.get, q, counterSchema, some n, d?⟩ c).2).body =
        Body.list ((List.range n).map (fun i => c + 1 + i)) := by
  have hne : n ≠ 0 := by omega
  refine ⟨?_, ?_, ?_⟩
  · simp [runHandler, jsTruthy, hne, withCount, produceN_withCount_count]
    omega
  · refine ⟨(produceN n (withCount f) (withCount f (s, k)).1).2, ?_,
      produceN_length (withCount f) n (withCount f (s, k)).1⟩
    simp [runHandler, jsTruthy, hne]
  · simp [runHandler, jsTruthy, hne, counterSchema, produceN_counter]

/-- C2 witness: the amended theorem applied at the counting producer,
N = 1, from states (0, 0) and 0. -/
theorem get_maxResults_invocations_w :
    0 < 1 ∧
      (((runHandler 0 ⟨Method.get, "/a", withCount counterSchema, some 1, none⟩
            ((0 : Nat), 0)).1).2 = 0 + (1 + 1) ∧
        (∃ vs, ((runHandler 0 ⟨Method.get, "/a", withCount counterSchema, some 1, none⟩
            ((0 : Nat), 0)).2).body = Body.list vs ∧ vs.length = 1) ∧
        ((runHandler 0 ⟨Method.get, "/a", counterSchema, some 1, none⟩ 0).2).body =
          Body.list ((List.range 1).map (fun i => 0 + 1 + i))) :=
  ⟨by decide, get_maxResults_invocations counterSchema 1 (by decide) "/a" "/a" none 0 0 0 0⟩

/-- C3: for a GET route bound without maxResults and for every route of
the other four methods, handling one request invokes the schema producer
exactly once (the invocation counter advances by exactly one) and the
response body is that single produced value.  The producer is only
captured, never invoked, at binding time: the Bind functions merely
append the closure to the router stack. -/
theorem single_invocation_per_request (method : Method) (path : String)
    (f : σ → σ × V) (mr d? : Option Nat) (sd : Nat) (s : σ) (k : Nat)
    (hmr : method = Method.get → mr = none) :
    runHandler sd ⟨method, path, withCount f, mr, d?⟩ (s, k) =
      (((f s).1, k + 1), ⟨200, Body.single (f s).2, SendResponseWithDelay sd d?⟩) := by
  cases method with
  | get =>
    have h := hmr rfl
    subst h
    simp [runHandler, jsTruthy, withCount]
  | post => simp [runHandler, withCount]
  | put => simp [runHandler, withCount]
  | delete => simp [runHandler, withCount]
  | patch => simp [runHandler, withCount]

/-- C3 witness: a POST route with the counting producer, handled once
from counter 0, ends at counter 1 and answers the first invocation's
value. -/
theorem single_invocation_per_request_w :
    runHandler 0 ⟨Method.post, "/users/create", withCount counterSchema, none, none⟩
        ((0 : Nat), 0) =
      ((1, 1), ⟨200, Body.single 0, Timing.immediate⟩) := by
  have h := single_invocation_per_request Method.post "/users/create" counterSchema
    none none 0 0 0 (fun _ => rfl)
  simpa [counterSchema, SendResponseWithDelay, jsTruthy] using h

/-- C4 counterexample: the gate only precedes handlers registered after
`EnableAuth`.  Binding a GET route first and enabling auth afterwards
puts the route layer ahead of the gate in the router stack, so a request
with no auth header at all is answered 200 by the handler and the
producer runs (the counter moves from 0 to 1) — not the claimed 401 with
the producer not invoked. -/
theorem auth_gate_after_binding_cex :
    dispatch 0
        ((EnableAuth
            (BindNewGETRoute (CreateNewServer none : MockServer Nat Nat) "/x"
              counterSchema none none) "tok" none).routerStack)
        ⟨Method.get, "/x", []⟩ 0 =
      (1, some ⟨200, Body.single 0, Timing.immediate⟩) ∧
      ¬ (dispatch 0
          ((EnableAuth
              (BindNewGETRoute (CreateNewServer none : MockServer Nat Nat) "/x"
                counterSchema none none) "tok" none).routerStack)
          ⟨Method.get, "/x", []⟩ 0).2 =
        some ⟨401, Body.message "Unauthorized", Timing.immediate⟩ ∧
      ¬ (dispatch 0
          ((EnableAuth
              (BindNewGETRoute (CreateNewServer none : MockServer Nat Nat) "/x"
                counterSchema none none) "tok" none).routerStack)
          ⟨Method.get, "/x", []⟩ 0).1 = 0 := by
  decide

/-- C4 (amended): when the auth gate precedes the route handlers in the
router stack — that is, for every route bound after `EnableAuth` was
called — a request whose named header is missing or equal to neither the
raw token nor "Bearer " ++ token is answered 401 with the fixed JSON body
message "Unauthorized", the producer state is returned untouched (no
schema producer runs), and no later layer is consulted.  A route bound
before `EnableAuth` sits ahead of the gate and is dispatched first, so
its producer still runs, as the counterexample shows. -/
theorem auth_gate_short_circuits (sd : Nat) (token key : String)
    (rest : List (RouterLayer σ V)) (req : Request) (s : σ)
    (h : authCheck token (req.headers.lookup key) = false) :
    dispatch sd (RouterLayer.authGate token key :: rest) req s =
      (s, some ⟨401, Body.message "Unauthorized", Timing.immediate⟩) := by
  simp [dispatch, h]

/-- C4 witness: the amended theorem applied to a gate followed by a GET
route, on a request with no headers. -/
theorem auth_gate_short_circuits_w :
    authCheck "tok" (([] : List (String × String)).lookup "authorization") = false ∧
      dispatch 0
          (RouterLayer.authGate "tok" "authorization" ::
            [RouterLayer.route
              (⟨Method.get, "/x", counterSchema, none, none⟩ : RouteBinding Nat Nat)])
          ⟨Method.get, "/x", []⟩ 0 =
        (0, some ⟨401, Body.message "Unauthorized", Timing.immediate⟩) :=
  ⟨by decide,
    auth_gate_short_circuits 0 "tok" "authorization" _ ⟨Method.get, "/x", []⟩ 0 (by decide)⟩

/-- C5: the gate check passes exactly when the named header is present
and equal (String equality, hence case-sensitively) to the bare token or
to "Bearer " ++ token; when it passes, dispatch through the gate reaches
the matching route handler and returns its result, and when it fails the
gate answers 401 with the fixed body message "Unauthorized". -/
theorem auth_gate_pass_iff (token key : String) (b : RouteBinding σ V)
    (req : Request) (sd : Nat) (s : σ)
    (hm : b.method = req.method) (hp : b.path = req.path) :
    (authCheck token (req.headers.lookup key) = true ↔
        req.headers.lookup key = some token ∨
          req.headers.lookup key = some ("Bearer " ++ token)) ∧
      (authCheck token (req.headers.lookup key) = true →
        dispatch sd [RouterLayer.authGate token key, RouterLayer.route b] req s =
          ((runHandler sd b s).1, some (runHandler sd b s).2)) ∧
      (authCheck token (req.headers.lookup key) = false →
        dispatch sd [RouterLayer.authGate token key, RouterLayer.route b] req s =
          (s, some ⟨401, Body.message "Unauthorized", Timing.immediate⟩)) := by
  refine ⟨?_, ?_, ?_⟩
  · simp [authCheck, or_comm]
  · intro h
    simp [dispatch, h, hm, hp]
  · intro h
    simp [dispatch, h]

/-- C5 witness: a request carrying "Bearer tok" in the authorization
header passes the gate of token "tok" and reaches the GET handler, which
answers 200 with the produced value. -/
theorem auth_gate_pass_iff_w :
    dispatch 0
        [RouterLayer.authGate "tok" "authorization",
          RouterLayer.route
            (⟨Method.get, "/x", counterSchema, none, none⟩ : RouteBinding Nat Nat)]
        ⟨Method.get, "/x", [("authorization", "Bearer tok")]⟩ 0 =
      (1, some ⟨200, Body.single 0, Timing.immediate⟩) := by
  have h := auth_gate_pass_iff "tok" "authorization"
    (⟨Method.get, "/x", counterSchema, none, none⟩ : RouteBinding Nat Nat)
    ⟨Method.get, "/x", [("authorization", "Bearer tok")]⟩ 0 0 rfl rfl
  exact (h.2.1 (by decide)).trans (by decide)

/-- C6: BindCrudRoutes appends exactly five route bindings to the router
stack, in this order and nothing else: GET /moduleName carrying the
maxResults argument, POST /moduleName/create, PUT /moduleName/update,
DELETE /moduleName/delete and PATCH /moduleName/patch-update, all
sharing the same schema producer and delay. -/
theorem bindCrudRoutes_exact (m : MockServer σ V) (moduleName : String)
    (schema : σ → σ × V) (mr d : Option Nat) :
    (BindCrudRoutes m moduleName schema mr d).routerStack =
      m.routerStack ++
        [RouterLayer.route ⟨Method.get, "/" ++ moduleName, schema, mr, d⟩,
          RouterLayer.route ⟨Method.post, "/" ++ moduleName ++ "/create", schema, none, d⟩,
          RouterLayer.route ⟨Method.put, "/" ++ moduleName ++ "/update", schema, none, d⟩,
          RouterLayer.route ⟨Method.delete, "/" ++ moduleName ++ "/delete", schema, none, d⟩,
          RouterLayer.route
            ⟨Method.patch, "/" ++ moduleName ++ "/patch-update", schema, none, d⟩] := by
  simp [BindCrudRoutes, BindNewGETRoute, BindNewPOSTRoute, BindNewPUTRoute,
    BindNewDELETERoute, BindNewPATCHRoute]

/-- C7: every response a bound handler produces carries status 200 and a
JSON body that is either the single produced value or the produced
array; no producer or binding argument can make it anything else through
this interface. -/
theorem bound_handler_always_200_json (sd : Nat) (b : RouteBinding σ V) (s : σ) :
    ((runHandler sd b s).2).status = 200 ∧
      ((∃ v, ((runHandler sd b s).2).body = Body.single v) ∨
        (∃ vs, ((runHandler sd b s).2).body = Body.list vs)) := by
  cases hb : b.method with
  | get =>
    by_cases h : jsTruthy b.maxResults
    · simp [runHandler, hb, h]
    · simp [runHandler, hb, h]
  | post => simp [runHandler, hb]
  | put => simp [runHandler, hb]
  | delete => simp [runHandler, hb]
  | patch => simp [runHandler, hb]

/-- C8: for every GET route bound with a positive maxResults N, every
request is answered with a JSON array of length exactly N, whatever the
producer, the delays and the producer state. -/
theorem get_maxResults_list_length (f : σ → σ × V) (n : Nat) (hn : 0 < n)
    (path : String) (d? : Option Nat) (sd : Nat) (s : σ) :
    ∃ vs, ((runHandler sd ⟨Method.get, path, f, some n, d?⟩ s).2).body = Body.list vs ∧
      vs.length = n := by
  have hne : n ≠ 0 := by omega
  refine ⟨(produceN n f (f s).1).2, ?_, produceN_length f n (f s).1⟩
  simp [runHandler, jsTruthy, hne]

/-- C8 witness: a GET route with maxResults 3 and the counting producer
answers a 3-element array. -/
theorem get_maxResults_list_length_w :
    0 < 3 ∧
      ∃ vs, ((runHandler 0 ⟨Method.get, "/users", counterSchema, some 3, none⟩
          (0 : Nat)).2).body = Body.list vs ∧ vs.length = 3 :=
  ⟨by decide, get_maxResults_list_length counterSchema 3 (by decide) "/users" none 0 0⟩

/-- C9: the route table logged after Start has exactly one line per
registered route binding, in registration order — the auth gates and the
body-parser and express-internal middlewares contribute nothing — and
each line is the method name uppercased and padded to 6 characters,
the separator, and the prefix joined with the bound pattern. -/
theorem logRoutes_route_table (m : MockServer σ V) :
    logRoutes m =
      (routeBindings m.routerStack).map
        (fun b => padEnd6 (Method.upper b.method) ++ " -  " ++ joinPath m.routePfx b.path) := by
  simp [logRoutes, appStackAfterStart, logLayer, routeBindings, filterMap_route_map]

/-- C10: CreateNewServer with the name omitted or empty produces a server
named "Mock Server" (the empty string is falsy under `||` and is replaced
by the default); any non-empty name is kept verbatim. -/
theorem createNewServer_name (s : String) (hs : s ≠ "") :
    (CreateNewServer none : MockServer Nat Nat).serverName = "Mock Server" ∧
      (CreateNewServer (some "") : MockServer Nat Nat).serverName = "Mock Server" ∧
      (CreateNewServer (some s) : MockServer Nat Nat).serverName = s := by
  refine ⟨rfl, by simp [CreateNewServer, jsStringOr], ?_⟩
  simp [CreateNewServer, jsStringOr, hs]

/-- C10 witness: the theorem applied at the non-empty name "api". -/
theorem createNewServer_name_w :
    "api" ≠ "" ∧
      ((CreateNewServer none : MockServer Nat Nat).serverName = "Mock Server" ∧
        (CreateNewServer (some "") : MockServer Nat Nat).serverName = "Mock Server" ∧
        (CreateNewServer (some "api") : MockServer Nat Nat).serverName = "api") :=
  ⟨by decide, createNewServer_name "api" (by decide)⟩

end MockEase
